import Mathlib

/-!
Verification of the muscle-image rendering handler
(`src/functions/muscle-image.js`).

The handler composites color-tinted muscle silhouette layers onto a base
body image and returns a PNG. We shallowly embed the handler as pure Lean
functions. The external raster library (sharp) and the filesystem are
modelled as an explicit environment `Env` of oracles; the JS builtin
`Number` and `Promise.all` are modelled by executable Lean functions.
-/

namespace MuscleImage

/-- Bytes of an image buffer (the result of sharp toBuffer). -/
abbrev Buffer := List Nat

/-- Model of a JS number as produced by the builtin Number: either the NaN
sentinel or an integer value. The handler only ever feeds Number the
comma-separated color components, so the integer fragment suffices. -/
inductive JsNum where
  | nan : JsNum
  | int : Int → JsNum
deriving DecidableEq, Repr

/-- Fold a list of decimal digits into a Nat. -/
def digitsToNat (l : List Char) : Nat :=
  l.foldl (fun acc c => acc * 10 + (c.toNat - 48)) 0

/-- JS whitespace characters ignored by the builtin Number (the common
ASCII subset). -/
def isJsSpace (c : Char) : Bool :=
  c = ' ' || c = '\t' || c = '\n' || c = '\r'

/-- Strip leading and trailing JS whitespace from a character list. -/
def trimChars (l : List Char) : List Char :=
  (((l.dropWhile isJsSpace).reverse.dropWhile isJsSpace).reverse)

/-- Model of the JS builtin Number restricted to the strings this handler
passes it: surrounding whitespace is ignored, the empty (or blank) string
is 0, optionally signed decimal digit strings are their integer value, and
everything else is the NaN sentinel. -/
def jsNumber (s : String) : JsNum :=
  let t := trimChars s.data
  if t.isEmpty then .int 0
  else if t.all Char.isDigit then .int (digitsToNat t)
  else if t.head? = some '-' && t.tail ≠ [] && t.tail.all Char.isDigit then
    .int (-(digitsToNat t.tail))
  else .nan

/-- Split a character list at every comma; a faithful executable model of
the JS s.split(",") on the characters (the empty input yields one empty
token, consecutive commas yield empty tokens). -/
def splitCommas (l : List Char) : List (List Char) :=
  match l with
  | [] => [[]]
  | c :: rest =>
    if c = ',' then [] :: splitCommas rest
    else
      match splitCommas rest with
      | [] => [[c]]
      | t :: ts => (c :: t) :: ts

/-- Model of the JS s.split(",") as a function on strings. -/
def jsSplitComma (s : String) : List String :=
  (splitCommas s.data).map (fun cs => String.mk cs)

/-- Environment of external collaborators: the filesystem probe
(fs.existsSync), the tint operation (sharp(path).tint of r, g, b then
toBuffer, whose three arguments model colorRgb[0], colorRgb[1],
colorRgb[2], with `none` standing for the JS undefined of an out-of-range
index), and the composite-and-encode operation (sharp(basePath).composite
then png then toBuffer). Tint and composite may fail (a rejected promise)
with an error message. -/
structure Env where
  fileExists : String → Bool
  tint : String → Option JsNum → Option JsNum → Option JsNum → Except String Buffer
  composite : String → List Buffer → Except String Buffer

/-- The fixed allow-list of valid muscle groups (availableMuscleGroups). -/
def availableMuscleGroups : List String :=
  ["all", "all_lower", "all_upper", "abductors", "abs", "adductors", "back",
   "back_lower", "back_upper", "biceps", "calfs", "chest", "core", "core_lower",
   "core_upper", "forearms", "gluteus", "hamstring", "hands", "latissimus",
   "legs", "neck", "quadriceps", "shoulders", "shoulders_back", "shoulders_front",
   "triceps"]

/-- The asset path constructed for a muscle identifier
(path.resolve(__dirname, ../images/muscle.png), kept relative). -/
def musclePath (m : String) : String := "../images/" ++ m ++ ".png"

/-- Path of the opaque base image. -/
def baseImageOpaque : String := "../images/baseImage.png"

/-- Path of the transparent base image. -/
def baseImageTransparent : String := "../images/baseImage_transparent.png"

/-- Embedding of createTintedLayer. The first component is the settled
promise: ok none for a validation miss (invalid group or missing file),
ok buffer for a successful tint, error for a rejected tint. The second
component is the console.warn diagnostics emitted. -/
def createTintedLayer (env : Env) (muscle : String) (colorRgb : List JsNum) :
    Except String (Option Buffer) × List String :=
  if muscle ∈ availableMuscleGroups then
    if env.fileExists (musclePath muscle) then
      ((env.tint (musclePath muscle) colorRgb[0]? colorRgb[1]? colorRgb[2]?).map some, [])
    else
      (.ok none, ["Image file not found for muscle: " ++ muscle])
  else
    (.ok none, ["Invalid muscle group requested: " ++ muscle])

/-- Query parameters of the request; a `none` field models a key absent
from the query-string object. -/
structure QueryParams where
  primary_muscles : Option String := none
  secondary_muscles : Option String := none
  primary_color : Option String := none
  secondary_color : Option String := none
  transparent : Option String := none
deriving DecidableEq, Repr

/-- The handler event; queryStringParameters = none models a null or
undefined query-parameters object on the event. -/
structure Event where
  queryStringParameters : Option QueryParams
deriving DecidableEq, Repr

/-- Response body: either base64-encoded PNG bytes or the
JSON.stringify-ed structured error object (error message, details). -/
inductive Body where
  | png : Buffer → Body
  | jsonError : String → String → Body
deriving DecidableEq, Repr

/-- The handler response object. contentType models the Content-Type
header (absent in the error branch). -/
structure Response where
  statusCode : Nat
  contentType : Option String
  body : Body
  isBase64Encoded : Bool
deriving DecidableEq, Repr

/-- The structured error response built in the top-level catch block. -/
def errorResponse (details : String) : Response :=
  { statusCode := 500, contentType := none,
    body := .jsonError "Failed to generate image." details,
    isBase64Encoded := false }

/-- The success response of the handler. -/
def successResponse (finalImageBuffer : Buffer) : Response :=
  { statusCode := 200, contentType := some "image/png",
    body := .png finalImageBuffer, isBase64Encoded := true }

/-- Message of the TypeError thrown when destructuring a null or undefined
event.queryStringParameters (quotation marks of the runtime message
omitted). -/
def destructureErrorMessage : String :=
  "Cannot destructure property primary_muscles of event.queryStringParameters as it is null."

/-- Embedding of primary_muscles.split(",").filter(Boolean): split on
commas, drop the empty (falsy) tokens. -/
def parseMuscles (s : String) : List String :=
  (jsSplitComma s).filter (fun t => t ≠ "")

/-- Embedding of primary_color.split(",").map(Number). -/
def parseColor (s : String) : List JsNum :=
  (jsSplitComma s).map jsNumber

/-- Whether a settled task is fulfilled (not a rejected promise). -/
def taskOk (t : Except String (Option Buffer)) : Bool :=
  match t with
  | .ok _ => true
  | .error _ => false

/-- The fulfilled value of a settled task, if any. -/
def taskValue (t : Except String (Option Buffer)) : Option (Option Buffer) :=
  match t with
  | .ok a => some a
  | .error _ => none

/-- Promise.all over the settled tasks, for an execution that settles them
in index order: the first rejection (in that order) rejects the whole
batch, otherwise the fulfilled values are gathered in index order.
Completion-order sensitivity is modelled separately by promiseAllSched. -/
def promiseAll (l : List (Except String (Option Buffer))) :
    Except String (List (Option Buffer)) :=
  match l with
  | [] => .ok []
  | t :: ts =>
    match t with
    | .error e => .error e
    | .ok a => (promiseAll ts).map (a :: ·)

/-- The base image path chosen from the transparent parameter (after its
default): the transparent asset iff the value is "1". -/
def chosenBasePath (transparent : String) : String :=
  if transparent = "1" then baseImageTransparent else baseImageOpaque

/-- The list of tint tasks the handler fans out: one createTintedLayer
promise per surviving primary identifier (tinted with the primary color),
then one per surviving secondary identifier (tinted with the secondary
color), in request order. -/
def tintTasks (env : Env) (q : QueryParams) : List (Except String (Option Buffer)) :=
  (parseMuscles (q.primary_muscles.getD "")).map
      (fun m => (createTintedLayer env m (parseColor (q.primary_color.getD "255,152,0"))).1)
    ++ (parseMuscles (q.secondary_muscles.getD "")).map
      (fun m => (createTintedLayer env m (parseColor (q.secondary_color.getD "255,211,144"))).1)

/-- Final stage of the handler body: keep the fulfilled non-null layers
in order, composite them onto the chosen base image and encode; an encode
or composite rejection becomes the structured error response via the
top-level catch. -/
def finishRender (env : Env) (q : QueryParams) (allLayers : List (Option Buffer)) : Response :=
  match env.composite (chosenBasePath (q.transparent.getD "0")) (allLayers.filterMap id) with
  | .error e => errorResponse e
  | .ok finalImageBuffer => successResponse finalImageBuffer

/-- Body of the handler after destructuring: fan out the tint tasks, join
them with Promise.all, then compose and encode; a rejection is caught by
the top-level catch and becomes errorResponse. -/
def handlerBody (env : Env) (q : QueryParams) : Response :=
  match promiseAll (tintTasks env q) with
  | .error e => errorResponse e
  | .ok allLayers => finishRender env q allLayers

/-- The exported handler: destructuring a null query-parameters object
throws, and the top-level catch converts the TypeError into the structured
error response; otherwise run the body. -/
def handler (env : Env) (event : Event) : Response :=
  match event.queryStringParameters with
  | none => errorResponse destructureErrorMessage
  | some q => handlerBody env q

/-- The fulfilled non-null layer produced for a muscle identifier, if any:
none when validation drops the identifier or the tint rejects. -/
def layerOf (env : Env) (color : List JsNum) (m : String) : Option Buffer :=
  (taskValue (createTintedLayer env m color).1).bind id

/-- Promise.all under an explicit completion schedule: `order` lists the
task indices in the order their promises settle. The batch rejects with
the reason of the first task in completion order that rejects; it
fulfills with the values in index order once every index has settled; it
is still pending (none) otherwise. -/
def promiseAllSched (tasks : List (Except String (Option Buffer))) (order : List Nat) :
    Option (Except String (List (Option Buffer))) :=
  match order.find? (fun i =>
      match tasks[i]? with
      | some (.error _) => true
      | _ => false) with
  | some i =>
    match tasks[i]? with
    | some (.error e) => some (.error e)
    | _ => none
  | none =>
    if (List.range tasks.length).all (fun j => order.contains j) then
      some (.ok (tasks.filterMap taskValue))
    else none

/-- The handler body run under an explicit tint completion schedule:
identical to handlerBody except that Promise.all is joined according to
the completion order; none models an execution that never settles. -/
def handlerBodySched (env : Env) (q : QueryParams) (order : List Nat) : Option Response :=
  match promiseAllSched (tintTasks env q) order with
  | none => none
  | some (.error e) => some (errorResponse e)
  | some (.ok allLayers) => some (finishRender env q allLayers)

/-- A test environment in which every file exists, tinting encodes the
asset path into the buffer, and compositing concatenates the base path
bytes with the layer bytes. -/
def envOk : Env where
  fileExists := fun _ => true
  tint := fun p _ _ _ => .ok (p.data.map Char.toNat)
  composite := fun p layers => .ok (p.data.map Char.toNat ++ layers.flatten)

/-- A test environment in which every file exists but every tint rejects,
with the asset path in the rejection reason. -/
def envTintFails : Env where
  fileExists := fun _ => true
  tint := fun p _ _ _ => .error ("decode failure " ++ p)
  composite := fun _ layers => .ok layers.flatten

/-- A test environment identical to envOk except that the filesystem
probe answers false at a path outside the allow-listed asset paths. -/
def envProbe : Env :=
  { envOk with fileExists := fun p => p ≠ "../images/evil.png" }

/-- A test environment identical to envOk except that no file exists. -/
def envNoFiles : Env :=
  { envOk with fileExists := fun _ => false }

/-- The query-parameters object carrying every documented default
explicitly. -/
def defaultParams : QueryParams where
  primary_muscles := some ""
  secondary_muscles := some ""
  primary_color := some "255,152,0"
  secondary_color := some "255,211,144"
  transparent := some "0"

/-! Helper lemmas. -/

/-- Promise.all fulfills with the values in index order when no task
rejects. -/
theorem promiseAll_allOk (l : List (Except String (Option Buffer)))
    (h : ∀ t ∈ l, taskOk t = true) :
    promiseAll l = .ok (l.filterMap taskValue) := by
  induction l with
  | nil => rfl
  | cons t ts ih =>
    have ht := h t (List.mem_cons_self _ _)
    cases t with
    | error e => simp [taskOk] at ht
    | ok a =>
      simp [promiseAll, List.filterMap_cons, taskValue, Except.map,
        ih (fun x hx => h x (List.mem_cons_of_mem _ hx))]

/-- An identifier outside the allow-list yields no layer, only the
invalid-group warning, and never consults the environment. -/
theorem createTintedLayer_not_available (env : Env) (m : String) (c : List JsNum)
    (h : m ∉ availableMuscleGroups) :
    createTintedLayer env m c = (.ok none, ["Invalid muscle group requested: " ++ m]) := by
  simp [createTintedLayer, h]

/-- An allow-listed identifier whose asset file is missing yields no
layer, only the missing-file warning. -/
theorem createTintedLayer_missing (env : Env) (m : String) (c : List JsNum)
    (hm : m ∈ availableMuscleGroups) (hf : env.fileExists (musclePath m) = false) :
    createTintedLayer env m c = (.ok none, ["Image file not found for muscle: " ++ m]) := by
  simp [createTintedLayer, hm, hf]

/-- When no tint task rejects, the handler body composites exactly the
successfully tinted layers: the primary-list layers in listed order,
followed by the secondary-list layers in listed order. -/
theorem handlerBody_allOk (env : Env) (q : QueryParams)
    (h : ∀ t ∈ tintTasks env q, taskOk t = true) :
    handlerBody env q =
      match env.composite (chosenBasePath (q.transparent.getD "0"))
          ((parseMuscles (q.primary_muscles.getD "")).filterMap
              (layerOf env (parseColor (q.primary_color.getD "255,152,0")))
            ++ (parseMuscles (q.secondary_muscles.getD "")).filterMap
              (layerOf env (parseColor (q.secondary_color.getD "255,211,144")))) with
      | .error e => errorResponse e
      | .ok finalImageBuffer => successResponse finalImageBuffer := by
  unfold handlerBody
  rw [promiseAll_allOk _ h]
  have : ((tintTasks env q).filterMap taskValue).filterMap id =
      (parseMuscles (q.primary_muscles.getD "")).filterMap
          (layerOf env (parseColor (q.primary_color.getD "255,152,0")))
        ++ (parseMuscles (q.secondary_muscles.getD "")).filterMap
          (layerOf env (parseColor (q.secondary_color.getD "255,211,144"))) := by
    simp only [tintTasks, List.filterMap_append, List.filterMap_map, List.filterMap_filterMap]
    rfl
  unfold finishRender
  simp only [this]

/-- Under any complete completion schedule with no rejecting task, the
scheduled Promise.all fulfills with the values in index order, regardless
of the schedule. -/
theorem promiseAllSched_complete (tasks : List (Except String (Option Buffer)))
    (order : List Nat) (h : ∀ t ∈ tasks, taskOk t = true)
    (hc : ∀ j < tasks.length, j ∈ order) :
    promiseAllSched tasks order = some (.ok (tasks.filterMap taskValue)) := by
  unfold promiseAllSched
  have hfind : order.find? (fun i =>
      match tasks[i]? with
      | some (.error _) => true
      | _ => false) = none := by
    apply List.find?_eq_none.mpr
    intro i _
    cases hti : tasks[i]? with
    | none => simp
    | some t =>
      have hmem := h t (List.getElem?_mem hti)
      cases t with
      | ok a => simp
      | error e => simp [taskOk] at hmem
  rw [hfind]
  simp
  exact hc

end MuscleImage

section Sanity
open MuscleImage

example : jsSplitComma "" = [""] := by decide
example : parseMuscles "" = [] := by decide
example : parseMuscles "a,,b" = ["a", "b"] := by decide
example : parseMuscles " " = [" "] := by decide
example : parseColor "255,abc" = [.int 255, .nan] := by decide
example : jsNumber "" = .int 0 := by decide
example : jsNumber " 12 " = .int 12 := by decide
example : jsNumber "-5" = .int (-5) := by decide

end Sanity

namespace MuscleImage

/-- The handler response is always either a full success response (PNG
body, image/png content type, success status) or the single structured
error response; it is never a mixture. -/
theorem handler_shape (env : Env) (event : Event) :
    (∃ b, handler env event = successResponse b) ∨
      (∃ d, handler env event = errorResponse d) := by
  obtain ⟨qsp⟩ := event
  cases qsp with
  | none => exact Or.inr ⟨destructureErrorMessage, rfl⟩
  | some q =>
    show (∃ b, handlerBody env q = successResponse b) ∨
      (∃ d, handlerBody env q = errorResponse d)
    cases hp : promiseAll (tintTasks env q) with
    | error e =>
      refine Or.inr ⟨e, ?_⟩
      simp only [handlerBody, hp]
    | ok allLayers =>
      cases hcmp : env.composite (chosenBasePath (q.transparent.getD "0"))
          (allLayers.filterMap id) with
      | error e =>
        refine Or.inr ⟨e, ?_⟩
        simp only [handlerBody, finishRender, hp, hcmp]
      | ok b =>
        refine Or.inl ⟨b, ?_⟩
        simp only [handlerBody, finishRender, hp, hcmp]

/-- Every tint task is fulfilled when every surviving identifier of the
request yields a fulfilled createTintedLayer promise. -/
theorem tintTasks_ok_of_mem (env : Env) (q : QueryParams)
    (h : ∀ m ∈ parseMuscles (q.primary_muscles.getD "")
          ++ parseMuscles (q.secondary_muscles.getD ""),
        ∀ c, taskOk (createTintedLayer env m c).1 = true) :
    ∀ t ∈ tintTasks env q, taskOk t = true := by
  intro t ht
  unfold tintTasks at ht
  rw [List.mem_append] at ht
  rcases ht with ht | ht <;> rw [List.mem_map] at ht
  · obtain ⟨m, hm, rfl⟩ := ht
    exact h m (List.mem_append_left _ hm) _
  · obtain ⟨m, hm, rfl⟩ := ht
    exact h m (List.mem_append_right _ hm) _

/-- A whitespace-only (or empty) identifier is never in the allow-list. -/
theorem blank_not_available (m : String) (h : m.data.all isJsSpace = true) :
    m ∉ availableMuscleGroups := by
  intro hmem
  fin_cases hmem <;> exact absurd h (by decide)

/-- The createTintedLayer promise of a validation miss is fulfilled with
null: an identifier outside the allow-list or with a missing asset file
never rejects. -/
theorem createTintedLayer_dropped (env : Env) (m : String) (c : List JsNum)
    (h : m ∉ availableMuscleGroups ∨ env.fileExists (musclePath m) = false) :
    (createTintedLayer env m c).1 = .ok none := by
  rcases h with h | h
  · rw [createTintedLayer_not_available env m c h]
  · by_cases hm : m ∈ availableMuscleGroups
    · rw [createTintedLayer_missing env m c hm h]
    · rw [createTintedLayer_not_available env m c hm]

/-- C3 (amended): per-layer validation failures (unknown identifier or
missing asset file) never escalate, but an unexpected tint rejection on a
single layer does abort the request, exactly like a base-canvas or
final-encode failure; every fatal failure is caught once at the top level
and converted into the single structured error response, never a partial
or corrupt binary body, and success carries the PNG bytes with
content-type image/png and a success status. -/
theorem C3_error_propagation :
    (∀ (env : Env) (event : Event),
        (∃ b, handler env event = successResponse b) ∨
          (∃ d, handler env event = errorResponse d)) ∧
    (∀ (env : Env) (m : String) (c : List JsNum),
        m ∉ availableMuscleGroups ∨ env.fileExists (musclePath m) = false →
        (createTintedLayer env m c).1 = .ok none) :=
  ⟨handler_shape, createTintedLayer_dropped⟩

/-- C3 witness: a validation miss (unknown identifier) fulfills with null
rather than rejecting. -/
theorem C3_error_propagation_witness :
    (createTintedLayer envOk "not_a_muscle" []).1 = .ok none :=
  C3_error_propagation.2 envOk "not_a_muscle" [] (Or.inl (by decide))

/-- C3 counterexample (to the claim as stated): an unexpected decode
error while tinting a single valid muscle layer rejects Promise.all and
aborts the whole request with the error status, contradicting the claim
that per-layer failures never escalate. -/
theorem C3_tint_rejection_aborts :
    handler envTintFails
        { queryStringParameters := some { primary_muscles := some "biceps" } } =
      errorResponse "decode failure ../images/biceps.png" ∧
    (errorResponse "decode failure ../images/biceps.png").statusCode = 500 := by
  constructor
  · decide
  · decide

/-- C5: when both muscle lists are empty (or every token is dropped or
fails validation), the handler body composites no layers at all: the
result is the selected base canvas re-encoded, returned successfully when
the encode succeeds. -/
theorem C5_empty_render_is_base (env : Env) (q : QueryParams)
    (h : ∀ m ∈ parseMuscles (q.primary_muscles.getD "")
          ++ parseMuscles (q.secondary_muscles.getD ""),
        m ∉ availableMuscleGroups ∨ env.fileExists (musclePath m) = false) :
    handlerBody env q =
      match env.composite (chosenBasePath (q.transparent.getD "0")) [] with
      | .error e => errorResponse e
      | .ok finalImageBuffer => successResponse finalImageBuffer := by
  have hdrop : ∀ m ∈ parseMuscles (q.primary_muscles.getD "")
        ++ parseMuscles (q.secondary_muscles.getD ""),
      ∀ c, (createTintedLayer env m c).1 = Except.ok none :=
    fun m hm c => createTintedLayer_dropped env m c (h m hm)
  have hok : ∀ t ∈ tintTasks env q, taskOk t = true :=
    tintTasks_ok_of_mem env q (fun m hm c => by rw [hdrop m hm c]; rfl)
  rw [handlerBody_allOk env q hok]
  have h1 : (parseMuscles (q.primary_muscles.getD "")).filterMap
      (layerOf env (parseColor (q.primary_color.getD "255,152,0"))) = [] := by
    rw [List.filterMap_eq_nil_iff]
    intro m hm
    unfold layerOf
    rw [hdrop m (List.mem_append_left _ hm) _]
    rfl
  have h2 : (parseMuscles (q.secondary_muscles.getD "")).filterMap
      (layerOf env (parseColor (q.secondary_color.getD "255,211,144"))) = [] := by
    rw [List.filterMap_eq_nil_iff]
    intro m hm
    unfold layerOf
    rw [hdrop m (List.mem_append_right _ hm) _]
    rfl
  rw [h1, h2]
  rfl

/-- C5 witness: the empty request on the test environment renders the
opaque base canvas alone. -/
theorem C5_empty_render_is_base_witness :
    handlerBody envOk {} =
      match envOk.composite (chosenBasePath (({} : QueryParams).transparent.getD "0")) [] with
      | .error e => errorResponse e
      | .ok finalImageBuffer => successResponse finalImageBuffer :=
  C5_empty_render_is_base envOk {} (by decide)

/-- C6: base canvas selection is total and binary: exactly one of the two
fixed base assets is chosen, and the transparent one is chosen iff the
transparent parameter is present and equal to "1"; "0", absence and every
other value select the opaque one. -/
theorem C6_base_selection :
    ∀ t : Option String,
      (chosenBasePath (t.getD "0") = baseImageTransparent ∨
        chosenBasePath (t.getD "0") = baseImageOpaque) ∧
      (chosenBasePath (t.getD "0") = baseImageTransparent ↔ t = some "1") := by
  intro t
  have hbase : baseImageOpaque ≠ baseImageTransparent := by decide
  cases t with
  | none =>
    refine ⟨Or.inr (by decide), ⟨?_, ?_⟩⟩
    · intro h
      exact absurd h (by decide)
    · intro h
      cases h
  | some s =>
    by_cases hs : s = "1"
    · subst hs
      exact ⟨Or.inl (by decide), ⟨fun _ => rfl, fun _ => by decide⟩⟩
    · have hop : chosenBasePath ((some s).getD "0") = baseImageOpaque := by
        simp [chosenBasePath, Option.getD, hs]
      refine ⟨Or.inr hop, ⟨?_, ?_⟩⟩
      · intro h
        rw [hop] at h
        exact absurd h hbase
      · intro h
        injection h with h'
        exact absurd h' hs

/-- C10: the documented parameter defaults are filled in only when the
query-parameters object is present with keys missing; a null or undefined
query-parameters object makes the destructuring throw, and the handler
returns the structured 500 error response instead of falling back to the
defaults. -/
theorem C10_null_query_object :
    (∀ env : Env, handler env { queryStringParameters := none } =
        errorResponse destructureErrorMessage) ∧
    (errorResponse destructureErrorMessage).statusCode = 500 ∧
    (∀ env : Env, handler env { queryStringParameters := some ({} : QueryParams) } =
        handler env { queryStringParameters := some defaultParams }) :=
  ⟨fun _ => rfl, rfl, fun _ => rfl⟩

/-- Every createTintedLayer promise is fulfilled when the tint oracle
never rejects. -/
theorem taskOk_of_tint_total (env : Env)
    (ht : ∀ p a b c, ∃ buf, env.tint p a b c = .ok buf) :
    ∀ m c, taskOk (createTintedLayer env m c).1 = true := by
  intro m c
  by_cases hm : m ∈ availableMuscleGroups
  · by_cases hf : env.fileExists (musclePath m) = true
    · obtain ⟨buf, hb⟩ := ht (musclePath m) (getElem? c 0) (getElem? c 1) (getElem? c 2)
      simp [createTintedLayer, hm, hf, hb, taskOk, Except.map]
    · have hf' : env.fileExists (musclePath m) = false := by
        simpa using hf
      simp [createTintedLayer, hm, hf', taskOk]
  · simp [createTintedLayer, hm, taskOk]

/-- When every tint task is fulfilled and the composite oracle never
rejects, the handler answers with the success status. -/
theorem handler_success_of_total (env : Env) (q : QueryParams)
    (hok : ∀ t ∈ tintTasks env q, taskOk t = true)
    (hc : ∀ p l, ∃ buf, env.composite p l = .ok buf) :
    (handler env { queryStringParameters := some q }).statusCode = 200 := by
  show (handlerBody env q).statusCode = 200
  rw [handlerBody_allOk env q hok]
  obtain ⟨buf, hb⟩ := hc (chosenBasePath (q.transparent.getD "0"))
    ((parseMuscles (q.primary_muscles.getD "")).filterMap
        (layerOf env (parseColor (q.primary_color.getD "255,152,0")))
      ++ (parseMuscles (q.secondary_muscles.getD "")).filterMap
        (layerOf env (parseColor (q.secondary_color.getD "255,211,144"))))
  rw [hb]
  rfl

/-- C1: when no tint task rejects, the layers composited onto the base
image are exactly the successfully tinted layers in request order: the
primary-list layers in their listed order (validation misses skipped),
followed by the secondary-list layers in their listed order (same rule);
duplicates each contribute their own layer at their own position. -/
theorem C1_request_order_stacking (env : Env) (q : QueryParams)
    (h : ∀ t ∈ tintTasks env q, taskOk t = true) :
    handlerBody env q =
      match env.composite (chosenBasePath (q.transparent.getD "0"))
          ((parseMuscles (q.primary_muscles.getD "")).filterMap
              (layerOf env (parseColor (q.primary_color.getD "255,152,0")))
            ++ (parseMuscles (q.secondary_muscles.getD "")).filterMap
              (layerOf env (parseColor (q.secondary_color.getD "255,211,144")))) with
      | .error e => errorResponse e
      | .ok finalImageBuffer => successResponse finalImageBuffer :=
  handlerBody_allOk env q h

/-- C1 witness: a request with a duplicated primary identifier and one
secondary identifier stacks biceps, biceps again, then chest, in that
order. -/
theorem C1_request_order_stacking_witness :
    handlerBody envOk
        { primary_muscles := some "biceps,biceps", secondary_muscles := some "chest" } =
      match envOk.composite (chosenBasePath "0")
          ((parseMuscles "biceps,biceps").filterMap (layerOf envOk (parseColor "255,152,0"))
            ++ (parseMuscles "chest").filterMap (layerOf envOk (parseColor "255,211,144"))) with
      | .error e => errorResponse e
      | .ok finalImageBuffer => successResponse finalImageBuffer :=
  C1_request_order_stacking envOk
    { primary_muscles := some "biceps,biceps", secondary_muscles := some "chest" }
    (by decide)

/-- C2: an identifier outside the allow-list, or without a backing image
asset, makes createTintedLayer fulfill with null after emitting the
corresponding diagnostic warning; and a request mixing such identifiers
with valid ones still completes with the success status whenever the
external tint and composite operations themselves never reject. -/
theorem C2_invalid_identifier_soft_drop :
    (∀ (env : Env) (m : String) (c : List JsNum), m ∉ availableMuscleGroups →
        createTintedLayer env m c =
          (.ok none, ["Invalid muscle group requested: " ++ m])) ∧
    (∀ (env : Env) (m : String) (c : List JsNum), m ∈ availableMuscleGroups →
        env.fileExists (musclePath m) = false →
        createTintedLayer env m c =
          (.ok none, ["Image file not found for muscle: " ++ m])) ∧
    (∀ (env : Env) (q : QueryParams),
        (∀ p a b c, ∃ buf, env.tint p a b c = .ok buf) →
        (∀ p l, ∃ buf, env.composite p l = .ok buf) →
        (handler env { queryStringParameters := some q }).statusCode = 200) := by
  refine ⟨createTintedLayer_not_available, createTintedLayer_missing, ?_⟩
  intro env q ht hc
  exact handler_success_of_total env q
    (tintTasks_ok_of_mem env q (fun m _ c => taskOk_of_tint_total env ht m c)) hc

/-- C2 witness: an unknown identifier and a missing asset each fulfill
with null plus a warning, and the mixed request biceps,not_a_muscle
completes with status 200. -/
theorem C2_invalid_identifier_soft_drop_witness :
    createTintedLayer envOk "not_a_muscle" [] =
      (.ok none, ["Invalid muscle group requested: not_a_muscle"]) ∧
    createTintedLayer envNoFiles "biceps" [] =
      (.ok none, ["Image file not found for muscle: biceps"]) ∧
    (handler envOk { queryStringParameters := some { primary_muscles := some "biceps,not_a_muscle" } }).statusCode = 200 :=
  ⟨C2_invalid_identifier_soft_drop.1 envOk "not_a_muscle" [] (by decide),
   C2_invalid_identifier_soft_drop.2.1 envNoFiles "biceps" [] (by decide) rfl,
   C2_invalid_identifier_soft_drop.2.2 envOk
     { primary_muscles := some "biceps,not_a_muscle" }
     (fun p a b c => ⟨p.data.map Char.toNat, rfl⟩)
     (fun p l => ⟨p.data.map Char.toNat ++ l.flatten, rfl⟩)⟩

/-- C4: the handler consults the environment only at the allow-listed
muscle asset paths and the two fixed base-image paths: two environments
that agree there are indistinguishable to every request, so no
caller-supplied identifier outside the allow-list can drive a filesystem
lookup. -/
theorem C4_allowlist_confines_reads (env env' : Env) (event : Event)
    (hf : ∀ m ∈ availableMuscleGroups,
        env.fileExists (musclePath m) = env'.fileExists (musclePath m))
    (ht : ∀ m ∈ availableMuscleGroups, ∀ a b c,
        env.tint (musclePath m) a b c = env'.tint (musclePath m) a b c)
    (hcomp : ∀ l, env.composite baseImageOpaque l = env'.composite baseImageOpaque l ∧
        env.composite baseImageTransparent l = env'.composite baseImageTransparent l) :
    handler env event = handler env' event := by
  obtain ⟨qsp⟩ := event
  cases qsp with
  | none => rfl
  | some q =>
    show handlerBody env q = handlerBody env' q
    have hlayer : ∀ (m : String) (c : List JsNum),
        createTintedLayer env m c = createTintedLayer env' m c := by
      intro m c
      by_cases hm : m ∈ availableMuscleGroups
      · have h1 := hf m hm
        have h2 := ht m hm
        simp [createTintedLayer, hm, h1, h2]
      · rw [createTintedLayer_not_available env m c hm,
          createTintedLayer_not_available env' m c hm]
    have htasks : tintTasks env q = tintTasks env' q := by
      unfold tintTasks
      simp only [hlayer]
    have hbase : ∀ l, env.composite (chosenBasePath (q.transparent.getD "0")) l =
        env'.composite (chosenBasePath (q.transparent.getD "0")) l := by
      intro l
      unfold chosenBasePath
      by_cases h1 : q.transparent.getD "0" = "1"
      · rw [if_pos h1]
        exact (hcomp l).2
      · rw [if_neg h1]
        exact (hcomp l).1
    unfold handlerBody finishRender
    rw [htasks]
    simp only [hbase]

/-- C4 witness: an environment whose filesystem differs only at a path no
allow-listed identifier can produce yields the same response. -/
theorem C4_allowlist_confines_reads_witness :
    handler envOk { queryStringParameters := some { primary_muscles := some "biceps" } } =
      handler envProbe { queryStringParameters := some { primary_muscles := some "biceps" } } :=
  C4_allowlist_confines_reads envOk envProbe
    { queryStringParameters := some { primary_muscles := some "biceps" } }
    (by decide) (fun _ _ _ _ _ => rfl) (fun _ => ⟨rfl, rfl⟩)

/-- C7 (amended): with fixed query parameters and assets the response is
independent of the tint completion order whenever no tint task rejects:
every complete completion schedule yields exactly the index-order
response; when several tint tasks reject with different reasons, the
error detail follows the first rejection in completion order and can
differ between runs (see the counterexample). -/
theorem C7_deterministic_when_no_rejection (env : Env) (q : QueryParams)
    (o o' : List Nat)
    (h : ∀ t ∈ tintTasks env q, taskOk t = true)
    (h1 : ∀ j < (tintTasks env q).length, j ∈ o)
    (h2 : ∀ j < (tintTasks env q).length, j ∈ o') :
    handlerBodySched env q o = some (handlerBody env q) ∧
      handlerBodySched env q o = handlerBodySched env q o' := by
  have key : ∀ o'', (∀ j < (tintTasks env q).length, j ∈ o'') →
      handlerBodySched env q o'' = some (handlerBody env q) := by
    intro o'' hcov
    unfold handlerBodySched handlerBody
    rw [promiseAllSched_complete _ o'' h hcov, promiseAll_allOk _ h]
  exact ⟨key o h1, (key o h1).trans (key o' h2).symm⟩

/-- C7 witness: on a fully succeeding two-layer request, the reversed
completion schedule yields the same response as the index-order one. -/
theorem C7_deterministic_when_no_rejection_witness :
    handlerBodySched envOk
        { primary_muscles := some "biceps", secondary_muscles := some "chest" } [1, 0] =
      some (handlerBody envOk
        { primary_muscles := some "biceps", secondary_muscles := some "chest" }) ∧
    handlerBodySched envOk
        { primary_muscles := some "biceps", secondary_muscles := some "chest" } [1, 0] =
      handlerBodySched envOk
        { primary_muscles := some "biceps", secondary_muscles := some "chest" } [0, 1] :=
  C7_deterministic_when_no_rejection envOk
    { primary_muscles := some "biceps", secondary_muscles := some "chest" }
    [1, 0] [0, 1] (by decide) (by decide) (by decide)

/-- C7 counterexample (to the claim as stated): when two tint tasks of the
same request reject with different reasons, the error body depends on the
completion order, so two runs with identical parameters and assets can
produce different output bodies. -/
theorem C7_completion_order_visible :
    handlerBodySched envTintFails { primary_muscles := some "biceps,triceps" } [0, 1] =
        some (errorResponse "decode failure ../images/biceps.png") ∧
      handlerBodySched envTintFails { primary_muscles := some "biceps,triceps" } [1, 0] =
        some (errorResponse "decode failure ../images/triceps.png") ∧
      handlerBodySched envTintFails { primary_muscles := some "biceps,triceps" } [0, 1] ≠
        handlerBodySched envTintFails { primary_muscles := some "biceps,triceps" } [1, 0] := by
  refine ⟨by decide, by decide, by decide⟩

/-- C8: each comma-separated color component is parsed by Number with no
range check and no NaN rejection (a non-numeric token becomes the NaN
sentinel), the parse result is handed verbatim to the tint operation as
the R, G, B components, and the handler itself never rejects a request
over a malformed color: with tint and composite oracles that accept
anything, every request succeeds. -/
theorem C8_color_passthrough :
    (∀ (env : Env) (m s : String), m ∈ availableMuscleGroups →
        env.fileExists (musclePath m) = true →
        (createTintedLayer env m (parseColor s)).1 =
          (env.tint (musclePath m) ((parseColor s)[0]?) ((parseColor s)[1]?)
            ((parseColor s)[2]?)).map some) ∧
    (jsNumber "abc" = .nan ∧ parseColor "255,abc,0" = [.int 255, .nan, .int 0]) ∧
    (∀ (env : Env) (q : QueryParams),
        (∀ p a b cc, ∃ buf, env.tint p a b cc = .ok buf) →
        (∀ p l, ∃ buf, env.composite p l = .ok buf) →
        (handler env { queryStringParameters := some q }).statusCode = 200) := by
  refine ⟨?_, ⟨by decide, by decide⟩, ?_⟩
  · intro env m s hm hf
    simp [createTintedLayer, hm, hf]
  · intro env q ht hc
    exact handler_success_of_total env q
      (tintTasks_ok_of_mem env q (fun m _ cc => taskOk_of_tint_total env ht m cc)) hc

/-- C8 witness: the two-token color string 12,abc parses to the value 12
followed by NaN, is handed verbatim to tint for the muscle biceps (with
undefined for the missing third component), and the request still
succeeds. -/
theorem C8_color_passthrough_witness :
    (createTintedLayer envOk "biceps" (parseColor "12,abc")).1 =
        (envOk.tint (musclePath "biceps") ((parseColor "12,abc")[0]?)
          ((parseColor "12,abc")[1]?) ((parseColor "12,abc")[2]?)).map some ∧
    (handler envOk { queryStringParameters := some { primary_muscles := some "biceps", primary_color := some "12,abc" } }).statusCode = 200 :=
  ⟨C8_color_passthrough.1 envOk "biceps" "12,abc" (by decide) rfl,
   C8_color_passthrough.2.2 envOk
     { primary_muscles := some "biceps", primary_color := some "12,abc" }
     (fun p _ _ _ => ⟨p.data.map Char.toNat, rfl⟩)
     (fun p l => ⟨p.data.map Char.toNat ++ l.flatten, rfl⟩)⟩

/-- C9 (amended): the identifier list is derived by splitting the string
on commas and discarding only the empty tokens (the JS filter(Boolean));
whitespace-only tokens are kept, but they are never members of the
allow-list, so validation drops them with a warning: they contribute no
layer and cause no error. -/
theorem C9_blank_tokens :
    (∀ s : String, parseMuscles s = (jsSplitComma s).filter (fun t => t ≠ "")) ∧
    (∀ m : String, m.data.all isJsSpace = true → m ∉ availableMuscleGroups) ∧
    (∀ (env : Env) (m : String) (cc : List JsNum), m.data.all isJsSpace = true →
        (createTintedLayer env m cc).1 = .ok none ∧
          (createTintedLayer env m cc).2 ≠ []) := by
  refine ⟨fun s => rfl, blank_not_available, ?_⟩
  intro env m cc hm
  rw [createTintedLayer_not_available env m cc (blank_not_available m hm)]
  exact ⟨rfl, by simp⟩

/-- C9 witness: the blank-token facts at the concrete token " ". -/
theorem C9_blank_tokens_witness :
    (" " ∉ availableMuscleGroups) ∧
      ((createTintedLayer envOk " " []).1 = .ok none ∧
        (createTintedLayer envOk " " []).2 ≠ []) :=
  ⟨C9_blank_tokens.2.1 " " (by decide), C9_blank_tokens.2.2 envOk " " [] (by decide)⟩

/-- C9 counterexample (to the claim as stated): the whitespace-only token
of primary_muscles=" " is not discarded before validation: it survives
the filter(Boolean) and reaches createTintedLayer, which emits the
invalid-group warning for it. -/
theorem C9_blank_token_not_discarded :
    parseMuscles " " = [" "] ∧ parseMuscles " " ≠ [] ∧
      createTintedLayer envOk " " (parseColor "255,152,0") =
        (.ok none, ["Invalid muscle group requested:  "]) := by
  refine ⟨by decide, by decide, by rfl⟩

end MuscleImage
